import Mathlib

/-!
# Verification of the CameraInterface core

Shallow embedding of the repository's two core classes and their contracts:

* `CapturedImage` (src/include/CameraInterface/CapturedImage.hpp): a fixed
  width×height pixel buffer with four `setData` overloads, a capture
  timestamp, and the accessors `getData` / `getDimension` / `getTime` /
  `sizeOfData`.
* `CameraBase` (src/include/CameraInterface/CameraBase.hpp): the lifecycle /
  capture engine with `initialize`, `setGain`, `setExposure`, `setRate`,
  `grabImage`, `startCapture`, `stopCapture` and the background
  `captureLoop`.

Modelling conventions:

* C++ `uint32_t` / `unsigned int` arithmetic is `Nat` with an explicit
  `% 2^32` wherever the C++ expression is computed in 32-bit unsigned
  arithmetic.
* A `std::vector<PixelType>` is a `List P`; its `size()` is the list length.
  `reserve` changes only capacity, never size, so it leaves the list alone.
* Driver virtual hooks (`handleInitialize`, `handleSetGain`, ...) are pure
  outcomes passed in as parameters: `Except String Unit` (resp.
  `Except String Img` for the grab hook), `.ok` for a `true` return and
  `.error msg` for a `false` return that wrote `msg` into the by-reference
  `error_message`.
* A C++ function returning `bool` that can flow off its end without a
  `return` statement is modelled with return type `Option Bool`:
  `some b` for an executed `return b;`, `none` for falling off the end
  (the returned value is undefined in C++).
* `std::chrono` time points are `Nat` ticks; the default-constructed
  ("never set") time point is `0`, and each `setData` call receives the
  current tick `now` as a parameter.
-/

namespace CameraInterface

/-- Modulus of C++ 32-bit unsigned arithmetic. -/
def u32Mod : Nat := 2 ^ 32

/-! ## CapturedImage (src/include/CameraInterface/CapturedImage.hpp) -/

/-- Models `CapturedImage<PixelType>::c_range_error_message`. -/
def c_range_error_message : String :=
  "Mismatch between input data and internal image buffer size."

/-- State of a `CapturedImage<PixelType>` object. `sizeofPixel` is
`sizeof(PixelType)`, fixed per template instantiation. `m_image` is the
`std::vector<PixelType>` (only its well-defined contents: elements within
the vector's size). `m_time` is the capture time point (0 = never set). -/
structure CapturedImage (P : Type) where
  sizeofPixel : Nat
  m_image : List P
  m_width : Nat
  m_height : Nat
  m_time : Nat
  deriving Repr, DecidableEq

namespace CapturedImage

variable {P : Type}

/-- Models `CapturedImage(uint32_t width, uint32_t height)`: stores the (32-bit)
dimensions and calls `m_image.reserve(width * height * sizeof(PixelType))`.
`reserve` allocates capacity only; the vector's size stays 0, so the
modelled contents are the empty list. `m_time` is default-constructed. -/
def construct (sz w h : Nat) : CapturedImage P :=
  { sizeofPixel := sz
    m_image := []
    m_width := w % u32Mod
    m_height := h % u32Mod
    m_time := 0 }

/-- Models `sizeOfData()`: returns `sizeof(PixelType)`. -/
def sizeOfData (img : CapturedImage P) : Nat :=
  img.sizeofPixel

/-- Models `getData()`: returns a const reference to `m_image`. -/
def getData (img : CapturedImage P) : List P :=
  img.m_image

/-- Models `getDimension()`: returns `(m_width, m_height)`. -/
def getDimension (img : CapturedImage P) : Nat × Nat :=
  (img.m_width, img.m_height)

/-- Models `getTime()`: returns `m_time`. -/
def getTime (img : CapturedImage P) : Nat :=
  img.m_time

/-- The C++ expression `m_width * m_height * sizeOfData()`: `uint32_t`
times `uint32_t` times `int`, evaluated in 32-bit unsigned arithmetic. -/
def byteCount (img : CapturedImage P) : Nat :=
  img.m_width * img.m_height * img.sizeofPixel % u32Mod

/-- The C++ expression `m_width * m_height` (`uint32_t` product, 32-bit
unsigned arithmetic). -/
def elemCount (img : CapturedImage P) : Nat :=
  img.m_width * img.m_height % u32Mod

/-! Each `setData` overload is modelled as a state transformer returning
the object's state after the call and the message of the
`std::runtime_error` thrown, if any (`none` on success). In every overload
the size check and throw come before any mutation, so on a throw the
post-state is the pre-call state. -/

/-- Models `setData(const void *array, std::size_t array_size)`: throws
`c_range_error_message` unless `array_size == m_width*m_height*sizeOfData()`;
otherwise stamps the time, clears `m_image`, reinterpret-casts the pointer
and assigns a fresh vector of the first `m_width*m_height` pixels behind it.
The raw source is modelled as `pixels` (the `PixelType` reinterpretation of
the bytes behind the pointer) together with its byte length `array_size`. -/
def setData_bytes (now : Nat) (pixels : List P) (array_size : Nat)
    (img : CapturedImage P) : CapturedImage P × Option String :=
  if array_size ≠ img.byteCount then
    (img, some c_range_error_message)
  else
    ({ img with m_time := now, m_image := pixels.take img.elemCount }, none)

/-- Models `setData(const PixelType *array, std::size_t array_size)`: throws
unless `array_size == m_width*m_height`; otherwise stamps the time, clears
`m_image` and assigns a fresh vector of the first `m_width*m_height`
pixels behind the pointer. The pointer's pointee run is `pixels`. -/
def setData_ptr (now : Nat) (pixels : List P) (array_size : Nat)
    (img : CapturedImage P) : CapturedImage P × Option String :=
  if array_size ≠ img.elemCount then
    (img, some c_range_error_message)
  else
    ({ img with m_time := now, m_image := pixels.take img.elemCount }, none)

/-- Models `setData(const std::string &buffer)`: throws unless
`buffer.size() == m_width*m_height*sizeOfData()`; otherwise stamps the time,
clears `m_image`, reinterpret-casts `buffer.data()` and assigns a fresh
vector of the first `m_width*m_height` pixels. The string is modelled as
`pixels` (the `PixelType` reinterpretation of its characters) together with
its byte length `buffer_size`. -/
def setData_string (now : Nat) (pixels : List P) (buffer_size : Nat)
    (img : CapturedImage P) : CapturedImage P × Option String :=
  if buffer_size ≠ img.byteCount then
    (img, some c_range_error_message)
  else
    ({ img with m_time := now, m_image := pixels.take img.elemCount }, none)

/-- Models `setData(const std::vector<PixelType> &buffer)`: throws unless
`buffer.size() == m_width*m_height`; otherwise stamps the time, clears
`m_image`, then runs `std::copy(buffer.begin(), buffer.end(),
m_image.begin())`. The copy writes into the cleared vector's raw capacity
past its end and never resizes it, so the vector's (well-defined) contents
afterwards are still the empty list. -/
def setData_vector (now : Nat) (buffer : List P)
    (img : CapturedImage P) : CapturedImage P × Option String :=
  if buffer.length ≠ img.elemCount then
    (img, some c_range_error_message)
  else
    ({ img with m_time := now, m_image := [] }, none)

end CapturedImage

/-! ## CameraBase (src/include/CameraInterface/CameraBase.hpp)

The engine is templated over the pixel type; nothing in its control flow
depends on the pixels, so the model is parameterized over opaque types
`CB` / `ECB` (the two `std::function` callback slots — stored, never
inspected here) and `Img` (the `std::unique_ptr<CapturedImage<PixelType>>`
handed to the grab hook). -/

/-- Global constant `uninitialized_camera_error_message`. -/
def uninitialized_camera_error_message : String :=
  "ERROR: The camera has not been properly initialized."

/-- Global constant `camera_running_error_message`. -/
def camera_running_error_message : String :=
  "ERROR: The camera is currently running. Stop the camera first."

/-- State of a `CameraBase<PixelType>` object. A default-constructed
`std::function` is empty, hence `Option`. `m_future_valid` records whether
`m_future` holds a shared state (an `std::async` task was launched and
`get()` has not consumed it). -/
structure CameraBase (CB ECB : Type) where
  m_callback : Option CB
  m_error_callback : Option ECB
  m_is_initialized : Bool
  m_is_running : Bool
  m_future_valid : Bool
  deriving Repr, DecidableEq

namespace CameraBase

variable {CB ECB Img : Type}

/-- Models `CameraBase()`: empty callbacks, `m_is_initialized(false)`,
`m_is_running(false)`, default (invalid) future. -/
def construct : CameraBase CB ECB :=
  { m_callback := none
    m_error_callback := none
    m_is_initialized := false
    m_is_running := false
    m_future_valid := false }

/-- Models `isInitialized(error_message)`: true when `m_is_initialized`, else
writes `uninitialized_camera_error_message` and returns false. The written
message is the `Option String` component. -/
def isInitialized (c : CameraBase CB ECB) : Bool × Option String :=
  if c.m_is_initialized then (true, none)
  else (false, some uninitialized_camera_error_message)

/-- Models `isNotRunning(error_message)`: true when `!m_is_running`, else writes
`camera_running_error_message` and returns false. -/
def isNotRunning (c : CameraBase CB ECB) : Bool × Option String :=
  if !c.m_is_running then (true, none)
  else (false, some camera_running_error_message)

/-- Models `initialize(callback, error_callback, error_message)`: early-returns
`true` if already initialized; otherwise stores both callbacks, runs the
driver's `handleInitialize` hook (outcome passed in as `hook`), returns
`false` with the hook's message on hook failure, else sets
`m_is_initialized` and returns `true`. Result: ((return value, message
written to `error_message`), state after the call). -/
def initializeCamera (cb : CB) (ecb : ECB) (hook : Except String Unit)
    (c : CameraBase CB ECB) : (Bool × Option String) × CameraBase CB ECB :=
  if c.m_is_initialized then ((true, none), c)
  else
    let c1 := { c with m_callback := some cb, m_error_callback := some ecb }
    match hook with
    | .error msg => ((false, some msg), c1)
    | .ok _ => ((true, none), { c1 with m_is_initialized := true })

/-- Shared body of `setGain` / `setExposure` / `setRate`: gate on
`isInitialized` then `isNotRunning`, then return the driver hook's result
verbatim. Each C++ setter passes its value argument straight to its hook;
the hook outcome for that value is the parameter `hook`. -/
def gatedSet (hook : Except String Unit) (c : CameraBase CB ECB) :
    (Bool × Option String) × CameraBase CB ECB :=
  match c.isInitialized with
  | (false, msg) => ((false, msg), c)
  | (true, _) =>
    match c.isNotRunning with
    | (false, msg) => ((false, msg), c)
    | (true, _) =>
      match hook with
      | .ok _ => ((true, none), c)
      | .error msg => ((false, some msg), c)

/-- Models `setGain(gain, error_message)`: gates, then delegates to
`handleSetGain(gain, error_message)` and returns its result. -/
def setGain (hook : Except String Unit) (c : CameraBase CB ECB) :
    (Bool × Option String) × CameraBase CB ECB :=
  gatedSet hook c

/-- Models `setExposure(exposure, error_message)`: gates, then delegates to
`handleSetExposure` and returns its result. -/
def setExposure (hook : Except String Unit) (c : CameraBase CB ECB) :
    (Bool × Option String) × CameraBase CB ECB :=
  gatedSet hook c

/-- Models `setRate(frame_rate, error_message)`: gates, then delegates to
`handleSetRate` and returns its result. -/
def setRate (hook : Except String Unit) (c : CameraBase CB ECB) :
    (Bool × Option String) × CameraBase CB ECB :=
  gatedSet hook c

/-- Models `grabImage(image, error_message)`: gates on `isInitialized` then
`isNotRunning`, then delegates to `handleGrabImage`, which on success
populates the by-reference `image` (the `Option Img` component) and on
failure writes `error_message`. -/
def grabImage (hook : Except String Img) (c : CameraBase CB ECB) :
    (Bool × Option String × Option Img) × CameraBase CB ECB :=
  match c.isInitialized with
  | (false, msg) => ((false, msg, none), c)
  | (true, _) =>
    match c.isNotRunning with
    | (false, msg) => ((false, msg, none), c)
    | (true, _) =>
      match hook with
      | .ok img => ((true, none, some img), c)
      | .error msg => ((false, some msg, none), c)

/-- Outcome of `startCapture`: `ret` is the returned `Bool` (`none` when
control flows off the end of the function, whose C++ return value is then
undefined), `written` the message written to `error_message`, `launched`
whether `std::async` was invoked (a background capture task created). -/
structure StartOutcome where
  ret : Option Bool
  written : Option String
  launched : Bool
  deriving Repr, DecidableEq

/-- Models `startCapture(error_message)`: gates on `isInitialized`; returns `true`
if `m_is_running` is already set; otherwise sets `m_is_running`, launches
the capture loop with `std::async` into `m_future`, and flows off the end
of the function without a `return` statement. -/
def startCapture (c : CameraBase CB ECB) :
    StartOutcome × CameraBase CB ECB :=
  match c.isInitialized with
  | (false, msg) => (⟨some false, msg, false⟩, c)
  | (true, _) =>
    if c.m_is_running then (⟨some true, none, false⟩, c)
    else (⟨none, none, true⟩,
      { c with m_is_running := true, m_future_valid := true })

/-- Outcome of `stopCapture`: `ret` as in `StartOutcome`; `joined` records
whether `m_future.get()` was invoked (blocking until the task exits when
the future is valid, and throwing `std::future_error` when it is not). -/
structure StopOutcome where
  ret : Option Bool
  written : Option String
  joined : Bool
  deriving Repr, DecidableEq

/-- Models `stopCapture(error_message)`: gates on `isInitialized`; **returns
`true` immediately while `m_is_running` is set**; otherwise (i.e. when not
running) clears `m_is_running`, calls `m_future.get()` and flows off the
end without a `return` statement. This is the code as written; its doc
comment says "Stop the capture loop". -/
def stopCapture (c : CameraBase CB ECB) :
    StopOutcome × CameraBase CB ECB :=
  match c.isInitialized with
  | (false, msg) => (⟨some false, msg, false⟩, c)
  | (true, _) =>
    if c.m_is_running then (⟨some true, none, false⟩, c)
    else (⟨none, none, true⟩,
      { c with m_is_running := false, m_future_valid := false })

/-- A callback invocation made by the capture loop: `m_callback(image)` on
a successful grab, `m_error_callback(error_message)` on a failed one. -/
inductive LoopEvent (Img : Type) where
  | image : Img → LoopEvent Img
  | error : String → LoopEvent Img
  deriving Repr, DecidableEq

/-- Models `captureLoop()`: `while (m_is_running)` grab an image via
`handleGrabImage`; on failure invoke the error callback with the failure
message and clear `m_is_running`; on success invoke the image callback.
`grab k` is the driver hook's outcome on its (k+1)-th invocation; `k` the
number of invocations already made; `running` the current value of
`m_is_running`. `fuel` bounds the number of iterations unrolled: the C++
loop runs unboundedly, and a run that exhausts its fuel while the flag is
still set models a loop that has not yet terminated. Returns the callback
invocations in order and the final value of `m_is_running`. -/
def captureLoop (grab : Nat → Except String Img) :
    Nat → Nat → Bool → List (LoopEvent Img) × Bool
  | 0, _, running => ([], running)
  | _ + 1, _, false => ([], false)
  | fuel + 1, k, true =>
    match grab k with
    | .error msg =>
      let rest := captureLoop grab fuel (k + 1) false
      (LoopEvent.error msg :: rest.1, rest.2)
    | .ok img =>
      let rest := captureLoop grab fuel (k + 1) true
      (LoopEvent.image img :: rest.1, rest.2)

/-- The `bool` a driver hook returns: `true` for `.ok`, `false` for
`.error`. -/
def hookRet {α : Type} : Except String α → Bool
  | .ok _ => true
  | .error _ => false

/-- The message a driver hook writes into its by-reference `error_message`:
`none` for `.ok`, the message for `.error`. -/
def hookMsg {α : Type} : Except String α → Option String
  | .ok _ => none
  | .error msg => some msg

/-- The image a grab hook writes into its by-reference `image` argument:
`some` on success, `none` on failure. -/
def hookImg : Except String Img → Option Img
  | .ok img => some img
  | .error _ => none

/-- The state effect of one guarded iteration of `captureLoop`'s `while`
body: when `m_is_running` is set, run the grab hook once and clear
`m_is_running` on hook failure; otherwise do nothing. -/
def loopStep (grab : Except String Img) (c : CameraBase CB ECB) :
    CameraBase CB ECB :=
  if c.m_is_running then
    match grab with
    | .error _ => { c with m_is_running := false }
    | .ok _ => c
  else c

/-- One engine operation together with the driver-hook outcome it consumes,
for stating state-machine invariants over arbitrary call sequences. -/
inductive Op (CB ECB Img : Type) where
  | opInitialize (cb : CB) (ecb : ECB) (hook : Except String Unit)
  | opSetGain (hook : Except String Unit)
  | opSetExposure (hook : Except String Unit)
  | opSetRate (hook : Except String Unit)
  | opGrabImage (hook : Except String Img)
  | opStartCapture
  | opStopCapture
  | opLoopStep (grab : Except String Img)

/-- The state component of each engine operation. -/
def step (c : CameraBase CB ECB) : Op CB ECB Img → CameraBase CB ECB
  | .opInitialize cb ecb hook => (initializeCamera cb ecb hook c).2
  | .opSetGain hook => (setGain hook c).2
  | .opSetExposure hook => (setExposure hook c).2
  | .opSetRate hook => (setRate hook c).2
  | .opGrabImage hook => (grabImage hook c).2
  | .opStartCapture => (startCapture c).2
  | .opStopCapture => (stopCapture c).2
  | .opLoopStep grab => loopStep grab c

/-- Folds a sequence of operations over a starting engine state. -/
def runOps (c : CameraBase CB ECB) : List (Op CB ECB Img) → CameraBase CB ECB
  | [] => c
  | op :: ops => runOps (step c op) ops

end CameraBase

/-! ## Sample states used by witnesses -/

/-- A freshly constructed engine (monomorphic instance for witnesses). -/
def uninitCam : CameraBase Unit Unit :=
  CameraBase.construct

/-- An engine after a successful first `initialize`. -/
def idleCam : CameraBase Unit Unit :=
  (CameraBase.initializeCamera () () (Except.ok ()) uninitCam).2

/-- The engine `idleCam` after `startCapture`. -/
def runningCam : CameraBase Unit Unit :=
  (CameraBase.startCapture idleCam).2

/-- A driver-double grab hook that succeeds on its first two invocations
and fails on the third. -/
def sampleGrab : Nat → Except String Nat :=
  fun i => if i < 2 then Except.ok i else Except.error "grab failed"

/-- A 3×3 one-byte-pixel buffer whose contents were previously set (at
tick 5) to the pixels 0..8, as by a successful `setData`. -/
def primedBuf : CapturedImage Nat :=
  { sizeofPixel := 1, m_image := [0, 1, 2, 3, 4, 5, 6, 7, 8]
    m_width := 3, m_height := 3, m_time := 5 }

end CameraInterface

namespace CameraInterface

/-! ## Theorems: the Image Buffer (claims about `CapturedImage`) -/

open CapturedImage in
/-- C3 (evaluation at the failing input): on the 3×3 one-byte-pixel buffer
`primedBuf` holding pixels 0..8, the typed-collection overload of `setData`
with a 9-element source passes its size check and throws nothing, yet the
resulting buffer's contents are empty instead of the source data: the
overload clears the vector and then `std::copy`s into `begin()` without
resizing, so the claim's "replaces the entire contents with the source
data" fails for this source shape. -/
theorem c3_setData_vector_eval :
    [9, 10, 11, 12, 13, 14, 15, 16, 17].length = primedBuf.elemCount ∧
    (setData_vector 7 [9, 10, 11, 12, 13, 14, 15, 16, 17] primedBuf).2 = none ∧
    (setData_vector 7 [9, 10, 11, 12, 13, 14, 15, 16, 17] primedBuf).1.getData = [] := by
  decide

open CapturedImage in
/-- C4 (counterexample): a freshly constructed 3×3 one-byte-pixel buffer
does not hold `width*height` elements — the constructor only `reserve`s
capacity, so `getData()` is empty right after construction. -/
theorem c4_counterexample :
    (construct 1 3 3 : CapturedImage Nat).getData.length ≠ 3 * 3 := by
  decide

open CapturedImage in
/-- C4 (amended): for a buffer whose element byte width is positive and
whose `width*height*sizeof(PixelType)` does not overflow 32-bit unsigned
arithmetic, every successful `setData` through the untyped-byte-pointer,
typed-pointer, or byte-buffer shape leaves the stored element count equal
to `width*height`, provided the source really supplies the byte/element
count it declares; but immediately after construction the stored element
count is 0, and a successful `setData` through the typed-collection shape
also leaves it 0. -/
theorem c4_amended_size_invariant {P : Type} (img : CapturedImage P)
    (now : Nat) (hsz : 0 < img.sizeofPixel)
    (hnof : img.m_width * img.m_height * img.sizeofPixel < u32Mod) :
    (∀ (pixels : List P) (array_size : Nat),
      pixels.length * img.sizeofPixel = array_size →
      (setData_bytes now pixels array_size img).2 = none →
      (setData_bytes now pixels array_size img).1.getData.length
        = img.m_width * img.m_height) ∧
    (∀ (pixels : List P) (array_size : Nat),
      pixels.length = array_size →
      (setData_ptr now pixels array_size img).2 = none →
      (setData_ptr now pixels array_size img).1.getData.length
        = img.m_width * img.m_height) ∧
    (∀ (pixels : List P) (buffer_size : Nat),
      pixels.length * img.sizeofPixel = buffer_size →
      (setData_string now pixels buffer_size img).2 = none →
      (setData_string now pixels buffer_size img).1.getData.length
        = img.m_width * img.m_height) ∧
    (∀ sz w h : Nat, (construct sz w h : CapturedImage P).getData.length = 0) ∧
    (∀ buffer : List P,
      (setData_vector now buffer img).2 = none →
      (setData_vector now buffer img).1.getData.length = 0) := by
  have hbc : img.byteCount = img.m_width * img.m_height * img.sizeofPixel :=
    Nat.mod_eq_of_lt hnof
  have hwh : img.m_width * img.m_height ≤
      img.m_width * img.m_height * img.sizeofPixel :=
    Nat.le_mul_of_pos_right _ hsz
  have helem : img.elemCount = img.m_width * img.m_height :=
    Nat.mod_eq_of_lt (lt_of_le_of_lt hwh hnof)
  refine ⟨?_, ?_, ?_, ?_, ?_⟩
  · intro pixels array_size hlen hok
    by_cases hguard : array_size = img.byteCount
    · have hp : pixels.length = img.m_width * img.m_height := by
        apply Nat.eq_of_mul_eq_mul_right hsz
        rw [hlen, hguard, hbc]
      simp [setData_bytes, hguard, getData, List.length_take, helem, hp]
    · simp [setData_bytes, hguard] at hok
  · intro pixels array_size hlen hok
    by_cases hguard : array_size = img.elemCount
    · have hp : pixels.length = img.m_width * img.m_height := by
        rw [hlen, hguard, helem]
      simp [setData_ptr, hguard, getData, List.length_take, helem, hp]
    · simp [setData_ptr, hguard] at hok
  · intro pixels buffer_size hlen hok
    by_cases hguard : buffer_size = img.byteCount
    · have hp : pixels.length = img.m_width * img.m_height := by
        apply Nat.eq_of_mul_eq_mul_right hsz
        rw [hlen, hguard, hbc]
      simp [setData_string, hguard, getData, List.length_take, helem, hp]
    · simp [setData_string, hguard] at hok
  · intro sz w h
    simp [construct, getData]
  · intro buffer hok
    by_cases hguard : buffer.length = img.elemCount
    · simp [setData_vector, hguard, getData]
    · simp [setData_vector, hguard] at hok

open CapturedImage in
/-- Witness for `c4_amended_size_invariant` at a 3×3 one-byte-pixel buffer:
a successful typed-pointer `setData` with 9 pixels stores 9 elements, a
fresh buffer stores 0, and a successful typed-collection `setData` with 9
pixels also stores 0. -/
theorem c4_amended_size_invariant_witness :
    (setData_ptr 5 [0, 1, 2, 3, 4, 5, 6, 7, 8] 9
        (construct 1 3 3 : CapturedImage Nat)).1.getData.length = 9 ∧
    (construct 1 3 3 : CapturedImage Nat).getData.length = 0 ∧
    (setData_vector 7 [9, 10, 11, 12, 13, 14, 15, 16, 17]
        primedBuf).1.getData.length = 0 := by
  have h1 := c4_amended_size_invariant (construct 1 3 3 : CapturedImage Nat)
    5 (by decide) (by decide)
  have h2 := c4_amended_size_invariant primedBuf 7 (by decide) (by decide)
  refine ⟨?_, h1.2.2.2.1 1 3 3, ?_⟩
  · have := h1.2.1 [0, 1, 2, 3, 4, 5, 6, 7, 8] 9 (by decide) (by decide)
    simpa [construct] using this
  · exact h2.2.2.2.2 [9, 10, 11, 12, 13, 14, 15, 16, 17] (by decide)

open CapturedImage in
/-- C10: a `setData` call that fails its size check leaves the buffer's
capture timestamp unchanged in addition to its contents, in all four
overloads — the throw happens before `setToCurrentTime()` is reached, so
`getTime()` still reports the previous value. -/
theorem c10_failed_setData_preserves_time {P : Type} (img : CapturedImage P)
    (now : Nat) :
    (∀ (pixels : List P) (array_size : Nat), array_size ≠ img.byteCount →
      (setData_bytes now pixels array_size img).1.getTime = img.getTime ∧
      (setData_bytes now pixels array_size img).1.getData = img.getData ∧
      (setData_bytes now pixels array_size img).2 = some c_range_error_message) ∧
    (∀ (pixels : List P) (array_size : Nat), array_size ≠ img.elemCount →
      (setData_ptr now pixels array_size img).1.getTime = img.getTime ∧
      (setData_ptr now pixels array_size img).1.getData = img.getData ∧
      (setData_ptr now pixels array_size img).2 = some c_range_error_message) ∧
    (∀ (pixels : List P) (buffer_size : Nat), buffer_size ≠ img.byteCount →
      (setData_string now pixels buffer_size img).1.getTime = img.getTime ∧
      (setData_string now pixels buffer_size img).1.getData = img.getData ∧
      (setData_string now pixels buffer_size img).2 = some c_range_error_message) ∧
    (∀ buffer : List P, buffer.length ≠ img.elemCount →
      (setData_vector now buffer img).1.getTime = img.getTime ∧
      (setData_vector now buffer img).1.getData = img.getData ∧
      (setData_vector now buffer img).2 = some c_range_error_message) := by
  refine ⟨?_, ?_, ?_, ?_⟩
  · intro pixels array_size h
    simp [setData_bytes, h]
  · intro pixels array_size h
    simp [setData_ptr, h]
  · intro pixels buffer_size h
    simp [setData_string, h]
  · intro buffer h
    simp [setData_vector, h]

open CapturedImage in
/-- Witness for `c10_failed_setData_preserves_time`: on the primed 3×3
buffer (timestamp 5, pixels 0..8), a typed-pointer `setData` with a
5-element source fails, throws the mismatch message, and leaves both the
timestamp and the contents as they were. -/
theorem c10_failed_setData_preserves_time_witness :
    (setData_ptr 11 [1, 2, 3, 4, 5] 5 primedBuf).1.getTime = 5 ∧
    (setData_ptr 11 [1, 2, 3, 4, 5] 5 primedBuf).1.getData
      = [0, 1, 2, 3, 4, 5, 6, 7, 8] ∧
    (setData_ptr 11 [1, 2, 3, 4, 5] 5 primedBuf).2
      = some c_range_error_message := by
  have h := (c10_failed_setData_preserves_time primedBuf 11).2.1
    [1, 2, 3, 4, 5] 5 (by decide)
  exact ⟨h.1, h.2.1, h.2.2⟩

end CameraInterface

namespace CameraInterface

/-! ## Theorems: the Lifecycle/Capture Engine (claims about `CameraBase`) -/

namespace CameraBase

variable {CB ECB Img : Type}

/-- Helper: the gated setter body rejects an uninitialized engine with the
"not initialized" message and leaves the state alone. -/
theorem gatedSet_uninit (hook : Except String Unit) (c : CameraBase CB ECB)
    (h : c.m_is_initialized = false) :
    gatedSet hook c = ((false, some uninitialized_camera_error_message), c) := by
  simp [gatedSet, isInitialized, h]

/-- Helper: the gated setter body rejects a running engine with the
"currently running" message and leaves the state alone. -/
theorem gatedSet_running (hook : Except String Unit) (c : CameraBase CB ECB)
    (hi : c.m_is_initialized = true) (hr : c.m_is_running = true) :
    gatedSet hook c = ((false, some camera_running_error_message), c) := by
  simp [gatedSet, isInitialized, isNotRunning, hi, hr]

/-- Helper: on an idle engine the gated setter body returns the driver
hook's outcome verbatim and leaves the state alone. -/
theorem gatedSet_idle (hook : Except String Unit) (c : CameraBase CB ECB)
    (hi : c.m_is_initialized = true) (hr : c.m_is_running = false) :
    gatedSet hook c = ((hookRet hook, hookMsg hook), c) := by
  cases hook <;> simp [gatedSet, isInitialized, isNotRunning, hookRet, hookMsg, hi, hr]

end CameraBase

open CameraBase in
/-- C5: each of `setGain`, `setExposure`, `setRate`, `grabImage` fails with
the "not initialized" message in `Uninitialized`, fails with the
"currently running" message in `Running`, and in `Idle` delegates to the
matching driver hook and propagates its outcome and message verbatim
(and, for `grabImage`, the hook-produced image); the two gate messages are
distinct. In all cases the engine state is untouched. -/
theorem c5_gating {CB ECB Img : Type} (c : CameraBase CB ECB)
    (h1 h2 h3 : Except String Unit) (h4 : Except String Img) :
    (c.m_is_initialized = false →
      setGain h1 c = ((false, some uninitialized_camera_error_message), c) ∧
      setExposure h2 c = ((false, some uninitialized_camera_error_message), c) ∧
      setRate h3 c = ((false, some uninitialized_camera_error_message), c) ∧
      grabImage h4 c = ((false, some uninitialized_camera_error_message, none), c)) ∧
    (c.m_is_initialized = true → c.m_is_running = true →
      setGain h1 c = ((false, some camera_running_error_message), c) ∧
      setExposure h2 c = ((false, some camera_running_error_message), c) ∧
      setRate h3 c = ((false, some camera_running_error_message), c) ∧
      grabImage h4 c = ((false, some camera_running_error_message, none), c)) ∧
    (c.m_is_initialized = true → c.m_is_running = false →
      setGain h1 c = ((hookRet h1, hookMsg h1), c) ∧
      setExposure h2 c = ((hookRet h2, hookMsg h2), c) ∧
      setRate h3 c = ((hookRet h3, hookMsg h3), c) ∧
      grabImage h4 c = ((hookRet h4, hookMsg h4, hookImg h4), c)) ∧
    uninitialized_camera_error_message ≠ camera_running_error_message := by
  refine ⟨fun h => ?_, fun hi hr => ?_, fun hi hr => ?_, by decide⟩
  · refine ⟨gatedSet_uninit h1 c h, gatedSet_uninit h2 c h,
      gatedSet_uninit h3 c h, ?_⟩
    simp [grabImage, isInitialized, h]
  · refine ⟨gatedSet_running h1 c hi hr, gatedSet_running h2 c hi hr,
      gatedSet_running h3 c hi hr, ?_⟩
    simp [grabImage, isInitialized, isNotRunning, hi, hr]
  · refine ⟨gatedSet_idle h1 c hi hr, gatedSet_idle h2 c hi hr,
      gatedSet_idle h3 c hi hr, ?_⟩
    cases h4 <;>
      simp [grabImage, isInitialized, isNotRunning, hookRet, hookMsg, hookImg, hi, hr]

open CameraBase in
/-- Witness for `c5_gating`: the fresh engine rejects `setGain` as not
initialized; the running engine rejects it as busy; the idle engine
propagates a hook failure message verbatim. -/
theorem c5_gating_witness :
    setGain (Except.ok ()) uninitCam
      = ((false, some uninitialized_camera_error_message), uninitCam) ∧
    setGain (Except.ok ()) runningCam
      = ((false, some camera_running_error_message), runningCam) ∧
    setGain (Except.error "gain out of range") idleCam
      = ((false, some "gain out of range"), idleCam) := by
  refine ⟨?_, ?_, ?_⟩
  · exact ((c5_gating uninitCam (.ok ()) (.ok ()) (.ok ())
      (Except.ok () : Except String Unit)).1 rfl).1
  · exact ((c5_gating runningCam (.ok ()) (.ok ()) (.ok ())
      (Except.ok () : Except String Unit)).2.1 rfl rfl).1
  · exact ((c5_gating idleCam (.error "gain out of range")
      (.ok ()) (.ok ()) (Except.ok () : Except String Unit)).2.2.1 rfl rfl).1

open CameraBase in
/-- C6: `initialize` is idempotent — on an engine that is already
initialized (`Idle` or `Running`) a further call returns success with the
state (callback slots included) completely unchanged and the result
independent of the driver hook's outcome, i.e. the hook is not consulted;
and a first `initialize` whose driver hook fails returns the failure with
the hook's message and leaves the engine uninitialized. -/
theorem c6_initialize_idempotent {CB ECB : Type} (c : CameraBase CB ECB)
    (cb : CB) (ecb : ECB) :
    (∀ hook : Except String Unit, c.m_is_initialized = true →
      initializeCamera cb ecb hook c = ((true, none), c)) ∧
    (∀ msg : String, c.m_is_initialized = false →
      (initializeCamera cb ecb (Except.error msg) c).1 = (false, some msg) ∧
      (initializeCamera cb ecb (Except.error msg) c).2.m_is_initialized = false) := by
  constructor
  · intro hook h
    simp [initializeCamera, h]
  · intro msg h
    simp [initializeCamera, h]

open CameraBase in
/-- Witness for `c6_initialize_idempotent`: a second `initialize` on the
already-initialized engine returns success unchanged even though its hook
would fail, and a first `initialize` with a failing hook reports the
failure and leaves the engine uninitialized. -/
theorem c6_initialize_idempotent_witness :
    initializeCamera () () (Except.error "no device") idleCam
      = ((true, none), idleCam) ∧
    (initializeCamera () () (Except.error "no device") uninitCam).1
      = (false, some "no device") ∧
    (initializeCamera () () (Except.error "no device") uninitCam).2.m_is_initialized
      = false := by
  refine ⟨?_, ?_, ?_⟩
  · exact (c6_initialize_idempotent idleCam () ()).1 (.error "no device") rfl
  · exact ((c6_initialize_idempotent uninitCam () ()).2 "no device" rfl).1
  · exact ((c6_initialize_idempotent uninitCam () ()).2 "no device" rfl).2

open CameraBase in
/-- C9: `initialize` assigns both callback slots before invoking the
driver's initialize hook, so a failing first `initialize` leaves the
engine uninitialized but with the callback slots already overwritten by
the failing call's arguments. -/
theorem c9_failed_initialize_overwrites_callbacks {CB ECB : Type}
    (c : CameraBase CB ECB) (cb : CB) (ecb : ECB) (msg : String)
    (h : c.m_is_initialized = false) :
    (initializeCamera cb ecb (Except.error msg) c).1 = (false, some msg) ∧
    (initializeCamera cb ecb (Except.error msg) c).2 =
      { c with m_callback := some cb, m_error_callback := some ecb } := by
  simp [initializeCamera, h]

open CameraBase in
/-- Witness for `c9_failed_initialize_overwrites_callbacks` on the fresh
engine: the failed call reports the hook's message and the resulting state
is the fresh state with both callback slots filled in. -/
theorem c9_failed_initialize_overwrites_callbacks_witness :
    (initializeCamera () () (Except.error "no device") uninitCam).1
      = (false, some "no device") ∧
    (initializeCamera () () (Except.error "no device") uninitCam).2 =
      { uninitCam with m_callback := some (), m_error_callback := some () } :=
  c9_failed_initialize_overwrites_callbacks uninitCam () () "no device" rfl

open CameraBase in
/-- C7 (evaluation at the failing input): `startCapture` on the fresh
engine fails with the "not initialized" message; on the running engine it
is a no-op returning `true`; on the idle engine it sets the running flag
and launches the one background task — but control flows off the end of
the `bool` function without a `return` statement (`ret = none`), so the
claim's "returns success" does not hold on that path. -/
theorem c7_startCapture_eval :
    startCapture uninitCam =
      (⟨some false, some uninitialized_camera_error_message, false⟩, uninitCam) ∧
    startCapture runningCam = (⟨some true, none, false⟩, runningCam) ∧
    startCapture idleCam = (⟨none, none, true⟩, runningCam) ∧
    runningCam.m_is_running = true ∧ runningCam.m_is_initialized = true := by
  decide

open CameraBase in
/-- C2 (evaluation at the failing input): the `stopCapture` guard is
inverted. Called on the running engine it returns `true` immediately —
without clearing the running flag, without joining the background task
(`joined = false`), leaving the state unchanged (still `Running`). Called
on the idle engine it instead clears the already-clear flag and invokes
`m_future.get()` (`joined = true`, a join on a future that holds no task),
then flows off the end without a `return` statement. Called on the fresh
engine it fails with the "not initialized" message. -/
theorem c2_stopCapture_eval :
    stopCapture runningCam = (⟨some true, none, false⟩, runningCam) ∧
    runningCam.m_is_running = true ∧
    stopCapture idleCam = (⟨none, none, true⟩, idleCam) ∧
    stopCapture uninitCam =
      (⟨some false, some uninitialized_camera_error_message, false⟩, uninitCam) := by
  decide

end CameraInterface

namespace CameraInterface

namespace CameraBase

variable {CB ECB Img : Type}

/-- Helper: once `m_is_running` is false the capture loop's `while` guard
fails immediately — no further grab, no further callback. -/
theorem captureLoop_not_running (grab : Nat → Except String Img)
    (fuel k : Nat) : captureLoop grab fuel k false = ([], false) := by
  cases fuel <;> rfl

/-- Helper: when the grab hook succeeds on the next `n` invocations
(producing `imgs (k+i)`) and fails on the one after with `msg`, the loop
started at invocation index `k` with the running flag set delivers, with
any fuel above `n`, the `n` images in capture order followed by the single
error message, and finishes with the running flag cleared. -/
theorem captureLoop_fail_after (grab : Nat → Except String Img)
    (imgs : Nat → Img) (msg : String) :
    ∀ n k fuel : Nat, (∀ i, i < n → grab (k + i) = Except.ok (imgs (k + i))) →
      grab (k + n) = Except.error msg → n + 1 ≤ fuel →
      captureLoop grab fuel k true =
        (((List.range n).map fun i => LoopEvent.image (imgs (k + i))) ++
          [LoopEvent.error msg], false) := by
  intro n
  induction n with
  | zero =>
    intro k fuel hok hfail hfuel
    obtain ⟨f, rfl⟩ : ∃ f, fuel = f + 1 := ⟨fuel - 1, by omega⟩
    have hk : grab k = Except.error msg := by simpa using hfail
    simp [captureLoop, hk, captureLoop_not_running]
  | succ n ih =>
    intro k fuel hok hfail hfuel
    obtain ⟨f, rfl⟩ : ∃ f, fuel = f + 1 := ⟨fuel - 1, by omega⟩
    have hk : grab k = Except.ok (imgs k) := by simpa using hok 0 (by omega)
    have hshift : ∀ i, k + 1 + i = k + (i + 1) := fun i => by omega
    have hrest := ih (k + 1) f
      (fun i hi => by rw [hshift i]; exact hok (i + 1) (by omega))
      (by rw [hshift n]; exact hfail) (by omega)
    simp only [captureLoop, hk, hrest, Prod.mk.injEq]
    refine ⟨?_, trivial⟩
    rw [List.range_succ_eq_map]
    simp [List.map_map, Function.comp, hshift]

end CameraBase

open CameraBase in
/-- C1: starting capture on an idle engine whose grab hook succeeds on its
first `n` invocations and fails on invocation `n + 1` (so `N = n + 1`):
`startCapture` sets the running flag and launches the one background task;
the capture loop then invokes the success callback exactly `n = N − 1`
times, once per successful grab in capture order, then invokes the error
callback exactly once with the driver's failure message, clears the
running flag itself and terminates without retrying; the engine is left
initialized and not running (`Idle`), with no `stopCapture` needed. -/
theorem c1_loop_stops_on_driver_failure {CB ECB Img : Type}
    (c : CameraBase CB ECB) (grab : Nat → Except String Img)
    (imgs : Nat → Img) (n : Nat) (msg : String) (fuel : Nat)
    (hinit : c.m_is_initialized = true) (hrun : c.m_is_running = false)
    (hok : ∀ i, i < n → grab i = Except.ok (imgs i))
    (hfail : grab n = Except.error msg) (hfuel : n + 1 ≤ fuel) :
    (startCapture c).2.m_is_running = true ∧
    (startCapture c).1.launched = true ∧
    captureLoop grab fuel 0 (startCapture c).2.m_is_running =
      (((List.range n).map fun i => LoopEvent.image (imgs i)) ++
        [LoopEvent.error msg], false) ∧
    ({ (startCapture c).2 with
        m_is_running :=
          (captureLoop grab fuel 0 (startCapture c).2.m_is_running).2 }
      : CameraBase CB ECB).m_is_initialized = true ∧
    ({ (startCapture c).2 with
        m_is_running :=
          (captureLoop grab fuel 0 (startCapture c).2.m_is_running).2 }
      : CameraBase CB ECB).m_is_running = false := by
  have hstart : (startCapture c).2 =
      { c with m_is_running := true, m_future_valid := true } ∧
      (startCapture c).1.launched = true := by
    constructor <;> simp [startCapture, isInitialized, hinit, hrun]
  have hloop := captureLoop_fail_after grab imgs msg n 0 fuel
    (fun i hi => by simpa using hok i hi) (by simpa using hfail) hfuel
  refine ⟨by simp [hstart.1], hstart.2, ?_, ?_, ?_⟩
  · rw [hstart.1]
    simpa using hloop
  · simp [hstart.1, hinit]
  · rw [hstart.1]
    simp only []
    simpa using congrArg Prod.snd hloop

open CameraBase in
/-- Witness for `c1_loop_stops_on_driver_failure`: on the idle engine with
the driver double `sampleGrab` (succeeds twice, fails on the third
invocation), the loop run with fuel 5 yields exactly two image callbacks
in order, then the single error callback with the driver's message, and
ends with the running flag cleared. -/
theorem c1_loop_stops_on_driver_failure_witness :
    captureLoop sampleGrab 5 0 (startCapture idleCam).2.m_is_running =
      ([LoopEvent.image 0, LoopEvent.image 1, LoopEvent.error "grab failed"],
        false) := by
  have h := c1_loop_stops_on_driver_failure idleCam sampleGrab (fun i => i)
    2 "grab failed" 5 rfl rfl
    (by intro i hi; interval_cases i <;> rfl) rfl (by omega)
  have := h.2.2.1
  simpa [List.range_succ] using this

end CameraInterface

namespace CameraInterface

namespace CameraBase

variable {CB ECB Img : Type}

/-- Helper: the gated setter body never changes the engine state. -/
theorem gatedSet_state (hook : Except String Unit) (c : CameraBase CB ECB) :
    (gatedSet hook c).2 = c := by
  by_cases hi : c.m_is_initialized <;> by_cases hr : c.m_is_running <;>
    cases hook <;> simp [gatedSet, isInitialized, isNotRunning, hi, hr]

/-- Helper: `grabImage` never changes the engine state. -/
theorem grabImage_state (hook : Except String Img) (c : CameraBase CB ECB) :
    (grabImage hook c).2 = c := by
  by_cases hi : c.m_is_initialized <;> by_cases hr : c.m_is_running <;>
    cases hook <;> simp [grabImage, isInitialized, isNotRunning, hi, hr]

/-- Helper: every single engine operation preserves "running implies
initialized". -/
theorem step_preserves_inv (c : CameraBase CB ECB) (op : Op CB ECB Img)
    (h : c.m_is_running = true → c.m_is_initialized = true) :
    (step c op).m_is_running = true → (step c op).m_is_initialized = true := by
  intro hrun
  cases op with
  | opInitialize cb ecb hook =>
    by_cases hi : c.m_is_initialized
    · simp [step, initializeCamera, hi]
    · cases hook with
      | ok _ => simp [step, initializeCamera, hi]
      | error m =>
        have hcr : c.m_is_running = true := by
          simpa [step, initializeCamera, hi] using hrun
        exact absurd (h hcr) hi
  | opSetGain hook =>
    simp only [step, setGain, gatedSet_state] at hrun ⊢
    exact h hrun
  | opSetExposure hook =>
    simp only [step, setExposure, gatedSet_state] at hrun ⊢
    exact h hrun
  | opSetRate hook =>
    simp only [step, setRate, gatedSet_state] at hrun ⊢
    exact h hrun
  | opGrabImage hook =>
    simp only [step, grabImage_state] at hrun ⊢
    exact h hrun
  | opStartCapture =>
    by_cases hi : c.m_is_initialized
    · by_cases hr : c.m_is_running <;>
        simp [step, startCapture, isInitialized, hi, hr]
    · have hcr : c.m_is_running = true := by
        simpa [step, startCapture, isInitialized, hi] using hrun
      exact absurd (h hcr) hi
  | opStopCapture =>
    by_cases hi : c.m_is_initialized
    · by_cases hr : c.m_is_running
      · simp [step, stopCapture, isInitialized, hi, hr]
      · simp [step, stopCapture, isInitialized, hi, hr] at hrun
    · have hcr : c.m_is_running = true := by
        simpa [step, stopCapture, isInitialized, hi] using hrun
      exact absurd (h hcr) hi
  | opLoopStep grab =>
    by_cases hr : c.m_is_running
    · cases grab with
      | ok _ =>
        simpa [step, loopStep, hr] using h hr
      | error m =>
        simp [step, loopStep, hr] at hrun
    · have hcr : c.m_is_running = true := by
        simp only [step, loopStep, hr, if_false, Bool.false_eq_true] at hrun
      exact absurd hcr hr

/-- Helper: the invariant propagates along any operation sequence. -/
theorem runOps_preserves_inv (ops : List (Op CB ECB Img))
    (c : CameraBase CB ECB)
    (h : c.m_is_running = true → c.m_is_initialized = true) :
    (runOps c ops).m_is_running = true →
    (runOps c ops).m_is_initialized = true := by
  induction ops generalizing c with
  | nil => exact h
  | cons op ops ih => exact ih (step c op) (step_preserves_inv c op h)

end CameraBase

open CameraBase in
/-- C8: in every state reachable from a freshly constructed engine through
any sequence of engine operations (initialize, the three setters,
grabImage, startCapture, stopCapture, and capture-loop iterations, with
arbitrary driver-hook outcomes), the running flag being set implies the
initialization flag is set. -/
theorem c8_running_implies_initialized {CB ECB Img : Type}
    (ops : List (Op CB ECB Img))
    (h : (runOps construct ops).m_is_running = true) :
    (runOps construct ops).m_is_initialized = true :=
  runOps_preserves_inv ops construct (by simp [construct]) h

open CameraBase in
/-- Witness for `c8_running_implies_initialized`: after a successful
`initialize` followed by `startCapture` the engine is running, and the
theorem yields that it is initialized. -/
theorem c8_running_implies_initialized_witness :
    (runOps construct [Op.opInitialize () () (Except.ok ()),
        (Op.opStartCapture : Op Unit Unit Unit)]).m_is_running = true ∧
    (runOps construct [Op.opInitialize () () (Except.ok ()),
        (Op.opStartCapture : Op Unit Unit Unit)]).m_is_initialized = true :=
  ⟨rfl, c8_running_implies_initialized _ rfl⟩

end CameraInterface
